import Mathlib

/-!
Shallow embedding of the KoboldCpp provider module
(agixt/providers/kobold.py) and verification of its specification.

Python strings are modelled as `List Char`, Python floats as exact
rationals (every float literal in the module is exactly representable),
dynamically typed numeric arguments as `PyVal`, JSON documents as the
inductive `Json`.  All definitions are executable.
-/

/-- A dynamically typed Python numeric value: an `int` or a `float`. -/
inductive PyVal where
  | pint (n : Int)
  | pfloat (q : ℚ)
  deriving DecidableEq, Repr

/-- Python `float(v)`. -/
def PyVal.toQ : PyVal → ℚ
  | .pint n => (n : ℚ)
  | .pfloat q => q

/-- Python `isinstance(v, int)`. -/
def PyVal.isInt : PyVal → Bool
  | .pint _ => true
  | .pfloat _ => false

/-- The integer held by a `PyVal` (meaningful under an `isInt` guard). -/
def PyVal.asInt : PyVal → Int
  | .pint n => n
  | .pfloat q => q.num

/-- A Python object passed as the `SAMPLE_ORDER` argument: either a list of
numbers or some non-list object (`other`). -/
inductive PyObj where
  | plist (xs : List PyVal)
  | other
  deriving DecidableEq, Repr

/-- Python `text.endswith(suf)`. -/
def endswith (text suf : List Char) : Bool := decide (suf <:+ text)

/-- Python `s[:-n]`.  For `n = 0` the Python expression reads `s[:0]`,
the empty string, since `-0 == 0`. -/
def pySliceNeg (s : List Char) (n : Nat) : List Char :=
  if n = 0 then [] else s.take (s.length - n)

/-- `clean_url` from the source: remove a trailing `"/api"`, else a single
trailing slash, else return the string unchanged. -/
def clean_url (url : List Char) : List Char :=
  if endswith url ("/api".toList) then pySliceNeg url 4
  else if endswith url ("/".toList) then pySliceNeg url 1
  else url

/-- `is_valid_float` from the source.  Python `value in (0, 1)` compares
numerically, so integer and float zero and one are all accepted by the
first test. -/
def is_valid_float (value : PyVal) (no_range : Bool) : Bool :=
  if value.toQ = 0 ∨ value.toQ = 1 then true
  else match value with
    | .pfloat q => if no_range then decide (0 ≤ q) else decide (0 ≤ q ∧ q ≤ 1)
    | .pint _ => false

/-- Python `set(xs) == set(ys)` on integer lists. -/
def pySetEq (xs ys : List Int) : Bool :=
  (xs.all fun a => ys.contains a) && (ys.all fun a => xs.contains a)

/-- `is_valid_sample_order` from the source.  The Python return expression is
`set(value) == set(range(6)) or set(range(7))`: `or` yields its second
operand when the first is falsy, and `set(range(7))` is a non-empty set,
hence truthy, so the returned object is truthy for every list of integers.
The caller observes only the truthiness, modelled here as `Bool`. -/
def is_valid_sample_order (value : PyObj) : Bool :=
  match value with
  | .plist xs =>
    if xs.all PyVal.isInt then
      pySetEq (xs.map PyVal.asInt) ((List.range 6).map Int.ofNat)
        || !((List.range 7).isEmpty)
    else false
  | .other => false

/-- **C6**: the URL normalizer is total and applies at most one trimming,
checked in priority order: a string ending in `"/api"` has exactly that
four-character suffix removed; otherwise a string ending in `"/"` has
exactly one trailing slash removed; otherwise the string is unchanged. -/
theorem clean_url_trims_once (s : List Char) :
    (endswith s ("/api".toList) = true → clean_url s ++ "/api".toList = s)
  ∧ (endswith s ("/api".toList) = false → endswith s ("/".toList) = true →
      clean_url s ++ "/".toList = s)
  ∧ (endswith s ("/api".toList) = false → endswith s ("/".toList) = false →
      clean_url s = s) := by
  refine ⟨?_, ?_, ?_⟩
  · intro h
    obtain ⟨t, rfl⟩ := of_decide_eq_true h
    have he : endswith (t ++ "/api".toList) ("/api".toList) = true :=
      decide_eq_true (List.suffix_append t _)
    simp only [clean_url, he, if_true, pySliceNeg]
    rw [if_neg (by decide), List.length_append]
    rw [List.take_left' (by simp)]
  · intro h1 h2
    obtain ⟨t, rfl⟩ := of_decide_eq_true h2
    have he : endswith (t ++ "/".toList) ("/".toList) = true :=
      decide_eq_true (List.suffix_append t _)
    simp only [clean_url, h1, Bool.false_eq_true, if_false, he, if_true,
      pySliceNeg]
    rw [if_neg (by decide), List.length_append]
    rw [List.take_left' (by simp)]
  · intro h1 h2
    simp only [clean_url, h1, h2, Bool.false_eq_true, if_false]

/-- Witness for C6 at concrete inputs, one per case. -/
theorem clean_url_trims_once_witness :
    (clean_url ("http://h:5001/api".toList) ++ "/api".toList
      = "http://h:5001/api".toList)
  ∧ (clean_url ("http://h:5001/".toList) ++ "/".toList
      = "http://h:5001/".toList)
  ∧ clean_url ("http://h:5001".toList) = "http://h:5001".toList :=
  ⟨(clean_url_trims_once ("http://h:5001/api".toList)).1 (by decide),
   (clean_url_trims_once ("http://h:5001/".toList)).2.1 (by decide) (by decide),
   (clean_url_trims_once ("http://h:5001".toList)).2.2 (by decide) (by decide)⟩

/-- JSON values, the payload and response language of the module. -/
inductive Json where
  | str (s : List Char)
  | num (q : ℚ)
  | bool (b : Bool)
  | null
  | arr (xs : List Json)
  | obj (fields : List (String × Json))

/-- First-match key lookup in an association list (Python dict access;
keys are unique in every dict the module builds). -/
def jget : List (String × Json) → String → Option Json
  | [], _ => none
  | (k, v) :: rest, key => if k = key then some v else jget rest key

/-- Python whitespace characters stripped by `str.strip` (ASCII range). -/
def isPySpace (c : Char) : Bool :=
  c = ' ' || c = '\t' || c = '\n' || c = '\r' || c = '\x0b' || c = '\x0c'

/-- Python `s.lstrip()`. -/
def pyLstrip (s : List Char) : List Char := s.dropWhile isPySpace

/-- Python `s.rstrip()`. -/
def pyRstrip (s : List Char) : List Char :=
  (s.reverse.dropWhile isPySpace).reverse

/-- Python `s.strip()`. -/
def pyStrip (s : List Char) : List Char := pyRstrip (pyLstrip s)

/-- One iteration of the stop-sequence loop in `inference`:
`if text.endswith(sequence): text = text[: -len(sequence)].rstrip()`. -/
def stripStopStep (text seq : List Char) : List Char :=
  if endswith text seq then pyRstrip (pySliceNeg text seq.length) else text

/-- The whole stop-sequence loop: every configured sequence is tried in
list order against the current text (the loop has no break). -/
def stripStopSequences (seqs : List (List Char)) (text : List Char) :
    List Char :=
  seqs.foldl stripStopStep text

/-- The stored configuration of a `KoboldProvider` instance, one field per
`self.*` assignment in `__init__`.  `PROMPT_PFX` models the source field
PROMPT_PREFIX. -/
structure Config where
  AI_PROVIDER_URI : List Char
  AI_MODEL : List Char
  PROMPT_PFX : List Char
  PROMPT_SUFFIX : List Char
  MAX_CONTEXT_LENGTH : Int
  MAX_LENGTH : Int
  REP_PEN : ℚ
  REP_PEN_RANGE : Int
  SAMPLE_ORDER : PyObj
  SAMPLER_SEED : Int
  STOP_SEQUENCE : Option (List (List Char))
  TEMPERATURE : PyVal
  TFS : PyVal
  TOP_A : PyVal
  TOP_K : Int
  TOP_P : PyVal
  MIN_P : PyVal
  TYPICAL : PyVal
  USE_DEFAULT_BADWORDSIDS : Bool
  MIROSTAT : Int
  MIROSTAT_TAU : ℚ
  MIROSTAT_ETA : ℚ
  GRAMMAR : List Char
  GRAMMAR_RETAIN_STATE : Bool
  MEMORY : List Char
  TRIM_STOP : Bool
  deriving DecidableEq, Repr

/-- The candidate arguments of `KoboldProvider.__init__`, one field per
named parameter.  Parameters whose validation inspects the Python dynamic
type (`isinstance` checks) are `PyVal`; the rest carry their annotated
type.  `PROMPT_PFX` models the source parameter PROMPT_PREFIX. -/
structure Candidates where
  AI_PROVIDER_URI : List Char
  AI_MODEL : List Char
  PROMPT_PFX : List Char
  PROMPT_SUFFIX : List Char
  MAX_CONTEXT_LENGTH : Int
  MAX_LENGTH : Int
  REP_PEN : PyVal
  REP_PEN_RANGE : Int
  SAMPLE_ORDER : PyObj
  SAMPLER_SEED : Int
  STOP_SEQUENCE : Option (List (List Char))
  TEMPERATURE : PyVal
  TFS : PyVal
  TOP_A : PyVal
  TOP_K : PyVal
  TOP_P : PyVal
  MIN_P : PyVal
  TYPICAL : PyVal
  USE_DEFAULT_BADWORDSIDS : Bool
  MIROSTAT : Int
  MIROSTAT_TAU : ℚ
  MIROSTAT_ETA : ℚ
  GRAMMAR : List Char
  GRAMMAR_RETAIN_STATE : Bool
  MEMORY : List Char
  TRIM_STOP : Bool
  deriving DecidableEq, Repr

/-- The default SAMPLE_ORDER list `[6, 0, 1, 3, 4, 2, 5]`. -/
def defaultSampleOrder : PyObj :=
  .plist [.pint 6, .pint 0, .pint 1, .pint 3, .pint 4, .pint 2, .pint 5]

/-- `KoboldProvider.__init__`: each stored field is the candidate when it
passes its validation and the documented default otherwise, line by line
from the source.  Note that the SAMPLER_SEED line tests the candidate
REP_PEN_RANGE, exactly as the source does. -/
def koboldInit (c : Candidates) : Config where
  AI_PROVIDER_URI :=
    if c.AI_PROVIDER_URI ≠ [] then clean_url c.AI_PROVIDER_URI
    else "http://host.docker.internal:5001".toList
  AI_MODEL := c.AI_MODEL
  PROMPT_PFX := c.PROMPT_PFX
  PROMPT_SUFFIX := c.PROMPT_SUFFIX
  MAX_CONTEXT_LENGTH :=
    if c.MAX_CONTEXT_LENGTH ≠ 0 then c.MAX_CONTEXT_LENGTH else 4096
  MAX_LENGTH := if c.MAX_LENGTH ≠ 0 then c.MAX_LENGTH else 80
  REP_PEN :=
    match c.REP_PEN with
    | .pfloat q => if 1 ≤ q then q else 11/10
    | .pint _ => 11/10
  REP_PEN_RANGE := if 0 ≤ c.REP_PEN_RANGE then c.REP_PEN_RANGE else 320
  SAMPLE_ORDER :=
    if is_valid_sample_order c.SAMPLE_ORDER then c.SAMPLE_ORDER
    else defaultSampleOrder
  SAMPLER_SEED :=
    if -1 ≤ c.REP_PEN_RANGE ∧ c.REP_PEN_RANGE ≤ 999999 then c.SAMPLER_SEED
    else -1
  STOP_SEQUENCE := c.STOP_SEQUENCE
  TEMPERATURE :=
    if is_valid_float c.TEMPERATURE false then c.TEMPERATURE
    else .pfloat (7/10)
  TFS := if is_valid_float c.TFS false then c.TFS else .pfloat 1
  TOP_A := if is_valid_float c.TOP_A false then c.TOP_A else .pfloat 0
  TOP_K :=
    match c.TOP_K with
    | .pint n => if 0 ≤ n then n else 100
    | .pfloat _ => 100
  TOP_P := if is_valid_float c.TOP_P false then c.TOP_P else .pfloat (92/100)
  MIN_P := if is_valid_float c.MIN_P false then c.MIN_P else .pfloat 0
  TYPICAL := if is_valid_float c.TYPICAL false then c.TYPICAL else .pfloat 1
  USE_DEFAULT_BADWORDSIDS := c.USE_DEFAULT_BADWORDSIDS
  MIROSTAT := if c.MIROSTAT ≠ 0 then c.MIROSTAT else 0
  MIROSTAT_TAU := if c.MIROSTAT_TAU ≠ 0 then c.MIROSTAT_TAU else 5
  MIROSTAT_ETA := if c.MIROSTAT_ETA ≠ 0 then c.MIROSTAT_ETA else 1/10
  GRAMMAR := c.GRAMMAR
  GRAMMAR_RETAIN_STATE := c.GRAMMAR_RETAIN_STATE
  MEMORY := c.MEMORY
  TRIM_STOP := c.TRIM_STOP

/-- Payload and response keys used by the module. -/
def kPrompt : String := "prompt"

def kMaxContextLength : String := "max_context_length"

def kMaxLength : String := "MAX_LENGTH"

def kRepPen : String := "rep_pen"

def kRepPenRange : String := "rep_pen_range"

def kSamplerOrder : String := "sampler_order"

def kTemperature : String := "temperature"

def kTfs : String := "tfs"

def kTopA : String := "top_a"

def kTopK : String := "top_k"

def kTopP : String := "top_p"

def kMinP : String := "min_p"

def kTypical : String := "typical"

def kSamplerSeed : String := "sampler_seed"

def kUseDefaultBadwordsids : String := "use_default_badwordsids"

def kMemory : String := "memory"

def kGrammar : String := "grammar"

def kGrammarRetainState : String := "grammar_retain_state"

def kMirostat : String := "mirostat"

def kMirostatTau : String := "mirostat_tau"

def kMirostatEta : String := "mirostat_eta"

def kStopSequence : String := "stop_sequence"

def kTrimStop : String := "trim_stop"

def kResults : String := "results"

def kText : String := "text"

/-- JSON serialization of a stored SAMPLE_ORDER value. -/
def pyObjToJson : PyObj → Json
  | .plist xs => .arr (xs.map fun v => Json.num v.toQ)
  | .other => .null

/-- The thirteen unconditional payload entries (source lines 100-114),
in dict-insertion order. -/
def baseParams (self : Config) (prompt0 : List Char) (tokens : Int) :
    List (String × Json) :=
  [(kPrompt, .str (self.PROMPT_PFX ++ prompt0 ++ self.PROMPT_SUFFIX)),
   (kMaxContextLength, .num (self.MAX_CONTEXT_LENGTH : ℚ)),
   (kMaxLength, .num ((self.MAX_LENGTH - tokens : Int) : ℚ)),
   (kRepPen, .num self.REP_PEN),
   (kRepPenRange, .num (self.REP_PEN_RANGE : ℚ)),
   (kSamplerOrder, pyObjToJson self.SAMPLE_ORDER),
   (kTemperature, .num self.TEMPERATURE.toQ),
   (kTfs, .num self.TFS.toQ),
   (kTopA, .num self.TOP_A.toQ),
   (kTopK, .num (self.TOP_K : ℚ)),
   (kTopP, .num self.TOP_P.toQ),
   (kMinP, .num self.MIN_P.toQ),
   (kTypical, .num self.TYPICAL.toQ)]

/-- The conditional payload entries (source lines 116-138), each group
inserted exactly when its activating condition holds, in source order. -/
def condParams (self : Config) : List (String × Json) :=
  (if 0 < self.SAMPLER_SEED then
    [(kSamplerSeed, .num (self.SAMPLER_SEED : ℚ))] else [])
  ++ (if self.USE_DEFAULT_BADWORDSIDS then
    [(kUseDefaultBadwordsids, .bool self.USE_DEFAULT_BADWORDSIDS)] else [])
  ++ (if self.MEMORY ≠ [] then [(kMemory, .str self.MEMORY)] else [])
  ++ (if self.GRAMMAR ≠ [] then
    [(kGrammar, .str self.GRAMMAR),
     (kGrammarRetainState, .bool self.GRAMMAR_RETAIN_STATE)] else [])
  ++ (if 0 < self.MIROSTAT then
    [(kMirostat, .num (self.MIROSTAT : ℚ)),
     (kMirostatTau, .num self.MIROSTAT_TAU),
     (kMirostatEta, .num self.MIROSTAT_ETA)] else [])
  ++ (match self.STOP_SEQUENCE with
    | some seqs =>
      (kStopSequence, .arr (seqs.map Json.str))
        :: (if self.TRIM_STOP then [(kTrimStop, .bool self.TRIM_STOP)] else [])
    | none => [])

/-- The request payload built by `inference` (source lines 98-138): the
thirteen unconditional entries followed, in order, by each conditional
entry exactly when its activating condition holds. -/
def buildParams (self : Config) (prompt0 : List Char) (tokens : Int) :
    List (String × Json) :=
  baseParams self prompt0 tokens ++ condParams self

/-- An HTTP response as the embedding sees it: status code and JSON body. -/
structure Response where
  status : Nat
  body : Json

/-- The errors `inference` can raise: `requests.HTTPError` from
`raise_for_status`, the `ValueError` for an unexpected response format,
and the dynamic type errors of the extraction path (`TypeError`,
`KeyError`, `AttributeError`; the embedding does not distinguish them).
Each carries the offending response. -/
inductive KoboldError where
  | transport (resp : Response)
  | format (resp : Response)
  | dynamic (resp : Response)

/-- `requests.Response.raise_for_status` raises exactly when
`400 <= status_code < 600`. -/
def isHttpError (status : Nat) : Bool :=
  decide (400 ≤ status) && decide (status < 600)

/-- Python `key in v` on a JSON value: key-presence test on a dict,
membership test on a list (string equality against each element),
substring test on a string; `none` models the `TypeError` raised on the
remaining types. -/
def pyIn (key : String) : Json → Option Bool
  | .obj fields => some (jget fields key).isSome
  | .arr xs => some (xs.any fun e =>
      match e with
      | .str s => decide (s = key.toList)
      | _ => false)
  | .str s => some (decide (key.toList <:+: s))
  | _ => none

/-- Python `len(v)` on a JSON value; `none` models the `TypeError` raised
on numbers, booleans and `None`. -/
def pyLen : Json → Option Nat
  | .str s => some s.length
  | .arr xs => some xs.length
  | .obj fs => some fs.length
  | _ => none

/-- Python `v[0]` on a value whose `len` succeeded and is positive: the
first element of a list, the one-character string for a string; `none`
models the `KeyError` of indexing a dict with the integer `0`. -/
def pyFirst : Json → Option Json
  | .arr (x :: _) => some x
  | .str (c :: _) => some (.str [c])
  | _ => none

/-- The outcome of evaluating the response-shape condition and the
extraction `json_response["results"][0]["text"].strip()` (source lines
144-149) under Python's dynamic semantics on JSON bodies. -/
inductive ExtractOutcome where
  | ok (s : List Char)
  | formatErr
  | dynErr

/-- Evaluation of source lines 144-149 on a JSON body: `ok` when the
shape condition is true and `results[0]["text"]` is a string, `formatErr`
when the condition evaluates to `False` (the `ValueError` branch), and
`dynErr` when the evaluation itself raises a dynamic type error — the
condition's `in`/`len`/indexing applied to an ill-typed value, or
`.strip()` on a present but non-string `text` value (`AttributeError`). -/
def extractOutcome (j : Json) : ExtractOutcome :=
  match pyIn kResults j with
  | none => .dynErr
  | some false => .formatErr
  | some true =>
    match j with
    | .obj fields =>
      match jget fields kResults with
      | some v =>
        match pyLen v with
        | none => .dynErr
        | some 0 => .formatErr
        | some (_+1) =>
          match pyFirst v with
          | none => .dynErr
          | some v0 =>
            match pyIn kText v0 with
            | none => .dynErr
            | some false => .formatErr
            | some true =>
              match v0 with
              | .obj f0 =>
                match jget f0 kText with
                | some (.str s) => .ok s
                | some _ => .dynErr
                | none => .dynErr
              | _ => .dynErr
      | none => .dynErr
    | _ => .dynErr

/-- The bodies on which the source reaches a result text: the shape
condition holds with a string-valued `results[0].text`, whose characters
are returned.  Exactly the `ok` case of `extractOutcome`. -/
def getResultText (j : Json) : Option (List Char) :=
  match extractOutcome j with
  | .ok s => some s
  | .formatErr => none
  | .dynErr => none

/-- Result extraction and post-processing of `inference` (source lines
140-160): transport error on a failure status, else evaluation of the
shape condition and extraction of `results[0].text`, whitespace strip,
the stop-sequence loop whenever a stop-sequence list is configured; a
format error carrying the response when the shape condition is false, and
a dynamic type error when its evaluation raises. -/
def processResponse (self : Config) (resp : Response) :
    Except KoboldError (List Char) :=
  if isHttpError resp.status then .error (.transport resp)
  else
    match extractOutcome resp.body with
    | .ok raw =>
      let text := pyStrip raw
      let text :=
        match self.STOP_SEQUENCE with
        | some seqs => stripStopSequences seqs text
        | none => text
      .ok text
    | .formatErr => .error (.format resp)
    | .dynErr => .error (.dynamic resp)

/-- The whole of `KoboldProvider.inference`, state threaded explicitly:
given the configuration, the prompt, the reserved token count and the
response the transport delivers, it returns the configuration after the
call, the posted payload and the outcome. -/
def inference (self : Config) (prompt : List Char) (tokens : Int)
    (resp : Response) :
    Config × List (String × Json) × Except KoboldError (List Char) :=
  (self, buildParams self prompt tokens, processResponse self resp)

/-- The documented default value of every constructor parameter. -/
def defaultCandidates : Candidates where
  AI_PROVIDER_URI := []
  AI_MODEL := "default".toList
  PROMPT_PFX := []
  PROMPT_SUFFIX := []
  MAX_CONTEXT_LENGTH := 4096
  MAX_LENGTH := 80
  REP_PEN := .pfloat (11/10)
  REP_PEN_RANGE := 320
  SAMPLE_ORDER := defaultSampleOrder
  SAMPLER_SEED := -1
  STOP_SEQUENCE := none
  TEMPERATURE := .pfloat (7/10)
  TFS := .pint 1
  TOP_A := .pint 0
  TOP_K := .pint 100
  TOP_P := .pfloat (92/100)
  MIN_P := .pint 0
  TYPICAL := .pint 1
  USE_DEFAULT_BADWORDSIDS := false
  MIROSTAT := 0
  MIROSTAT_TAU := 5
  MIROSTAT_ETA := 1/10
  GRAMMAR := []
  GRAMMAR_RETAIN_STATE := false
  MEMORY := []
  TRIM_STOP := false

theorem jget_append_left (a b : List (String × Json)) (k : String) (v : Json)
    (h : jget a k = some v) : jget (a ++ b) k = some v := by
  induction a with
  | nil => simp [jget] at h
  | cons p rest ih =>
    obtain ⟨k', v'⟩ := p
    by_cases hk : k' = k
    · simpa [jget, hk] using h
    · simp only [jget, hk, if_false, List.cons_append] at h ⊢
      exact ih h

theorem jget_append_right (a b : List (String × Json)) (k : String)
    (h : jget a k = none) : jget (a ++ b) k = jget b k := by
  induction a with
  | nil => simp
  | cons p rest ih =>
    obtain ⟨k', v'⟩ := p
    by_cases hk : k' = k
    · simp [jget, hk] at h
    · simp only [jget, hk, if_false, List.cons_append] at h ⊢
      exact ih h

/-- **C2**: the stored SAMPLER_SEED is -1 whenever the candidate
REP_PEN_RANGE lies outside [-1, 999999], whatever the seed candidate was;
otherwise it is the candidate seed unchanged. -/
theorem sampler_seed_validated_via_range (c : Candidates) :
    (¬(-1 ≤ c.REP_PEN_RANGE ∧ c.REP_PEN_RANGE ≤ 999999) →
      (koboldInit c).SAMPLER_SEED = -1)
  ∧ ((-1 ≤ c.REP_PEN_RANGE ∧ c.REP_PEN_RANGE ≤ 999999) →
      (koboldInit c).SAMPLER_SEED = c.SAMPLER_SEED) := by
  constructor <;> intro h <;> simp [koboldInit, h]

/-- Witness for C2: REP_PEN_RANGE = 1000000 forces the seed to -1 even
though seed 42 itself is a lawful value; REP_PEN_RANGE = 320 stores 42. -/
theorem sampler_seed_validated_via_range_witness :
    ((koboldInit { defaultCandidates with
        REP_PEN_RANGE := 1000000, SAMPLER_SEED := 42 }).SAMPLER_SEED = -1)
  ∧ ((koboldInit { defaultCandidates with
        SAMPLER_SEED := 42 }).SAMPLER_SEED = 42) :=
  ⟨(sampler_seed_validated_via_range { defaultCandidates with
      REP_PEN_RANGE := 1000000, SAMPLER_SEED := 42 }).1 (by decide),
   (sampler_seed_validated_via_range { defaultCandidates with
      SAMPLER_SEED := 42 }).2 (by decide)⟩

/-- **C7**: a candidate REP_PEN that is a float at least 1 is stored
unchanged; every other candidate is replaced by the default 1.1. -/
theorem rep_pen_requires_float_ge_one (c : Candidates) :
    (∀ q : ℚ, c.REP_PEN = PyVal.pfloat q → 1 ≤ q →
      (koboldInit c).REP_PEN = q)
  ∧ ((∀ q : ℚ, c.REP_PEN = PyVal.pfloat q → q < 1) →
      (koboldInit c).REP_PEN = 11/10) := by
  constructor
  · intro q hq h1
    simp [koboldInit, hq, h1]
  · intro h
    rcases hc : c.REP_PEN with n | q
    · simp [koboldInit, hc]
    · have hlt := h q hc
      simp [koboldInit, hc, not_le.mpr hlt]

/-- Witness for C7: float 2.0 is stored unchanged; the integer 3, although
at least 1, is not a float and falls back to 1.1. -/
theorem rep_pen_requires_float_ge_one_witness :
    ((koboldInit { defaultCandidates with
        REP_PEN := .pfloat 2 }).REP_PEN = 2)
  ∧ ((koboldInit { defaultCandidates with
        REP_PEN := .pint 3 }).REP_PEN = 11/10) :=
  ⟨(rep_pen_requires_float_ge_one { defaultCandidates with
      REP_PEN := .pfloat 2 }).1 2 rfl (by norm_num),
   (rep_pen_requires_float_ge_one { defaultCandidates with
      REP_PEN := .pint 3 }).2 (fun q h => nomatch h)⟩

/-- **C1** (code defect, observed behavior): the sampler-order validator
accepts every list of integers, because the disjunction with
`set(range(7))` in its return expression is always truthy, so the
constructor stores the non-permutation `[0]` unchanged instead of
substituting the default `[6, 0, 1, 3, 4, 2, 5]` that the validator's own
docstring and the specified invariant require. -/
theorem sample_order_check_accepts_non_permutation :
    is_valid_sample_order (PyObj.plist [PyVal.pint 0]) = true
  ∧ (koboldInit { defaultCandidates with
      SAMPLE_ORDER := PyObj.plist [PyVal.pint 0] }).SAMPLE_ORDER
      = PyObj.plist [PyVal.pint 0]
  ∧ PyObj.plist [PyVal.pint 0] ≠ defaultSampleOrder :=
  ⟨by decide, by decide, by decide⟩

/-- **C9**: `inference` returns every stored configuration field unchanged:
the configuration threaded through the call comes back equal to the one
passed in, for every prompt, reserved-token count and response. -/
theorem inference_preserves_config (cfg : Config) (prompt : List Char)
    (tokens : Int) (resp : Response) :
    (inference cfg prompt tokens resp).1 = cfg := rfl

/-- **C8**: the `MAX_LENGTH` payload entry equals the stored maximum
output length minus the reserved token count; the difference is an
integer that may be negative and is placed in the payload as-is. -/
theorem payload_max_length_subtracts_tokens (cfg : Config)
    (prompt : List Char) (tokens : Int) :
    jget (buildParams cfg prompt tokens) kMaxLength
      = some (Json.num ((cfg.MAX_LENGTH - tokens : Int) : ℚ)) := by
  unfold buildParams
  apply jget_append_left
  simp [baseParams, jget, kPrompt, kMaxContextLength, kMaxLength]

theorem jget_base_none (cfg : Config) (prompt : List Char) (tokens : Int) :
    (jget (baseParams cfg prompt tokens) kSamplerSeed = none)
  ∧ (jget (baseParams cfg prompt tokens) kUseDefaultBadwordsids = none)
  ∧ (jget (baseParams cfg prompt tokens) kMemory = none)
  ∧ (jget (baseParams cfg prompt tokens) kGrammar = none)
  ∧ (jget (baseParams cfg prompt tokens) kGrammarRetainState = none)
  ∧ (jget (baseParams cfg prompt tokens) kMirostat = none)
  ∧ (jget (baseParams cfg prompt tokens) kMirostatTau = none)
  ∧ (jget (baseParams cfg prompt tokens) kMirostatEta = none)
  ∧ (jget (baseParams cfg prompt tokens) kStopSequence = none)
  ∧ (jget (baseParams cfg prompt tokens) kTrimStop = none) := by
  refine ⟨?_, ?_, ?_, ?_, ?_, ?_, ?_, ?_, ?_, ?_⟩ <;>
    simp [baseParams, jget, kPrompt, kMaxContextLength, kMaxLength, kRepPen,
      kRepPenRange, kSamplerOrder, kTemperature, kTfs, kTopA, kTopK, kTopP,
      kMinP, kTypical, kSamplerSeed, kUseDefaultBadwordsids, kMemory,
      kGrammar, kGrammarRetainState, kMirostat, kMirostatTau, kMirostatEta,
      kStopSequence, kTrimStop]


theorem jget_skip_ite (c : Prop) [Decidable c] (a b : List (String × Json))
    (k : String) (h : jget a k = none) :
    jget ((if c then a else []) ++ b) k = jget b k := by
  by_cases hc : c
  · rw [if_pos hc]; exact jget_append_right _ _ _ h
  · rw [if_neg hc]; rfl

theorem jget_here_ite (c : Prop) [Decidable c] (a b : List (String × Json))
    (k : String) (v : Json) (ha : jget a k = some v) (hb : jget b k = none) :
    jget ((if c then a else []) ++ b) k = if c then some v else none := by
  by_cases hc : c
  · rw [if_pos hc, if_pos hc]; exact jget_append_left _ _ _ _ ha
  · rw [if_neg hc, if_neg hc]; simpa using hb

theorem jget_cond_sampler_seed (cfg : Config) :
    jget (condParams cfg) kSamplerSeed
      = if 0 < cfg.SAMPLER_SEED then some (Json.num (cfg.SAMPLER_SEED : ℚ))
        else none := by
  unfold condParams
  simp only [List.append_assoc]
  refine jget_here_ite _ _ _ _ _ (by simp [jget, kSamplerSeed]) ?_
  rw [jget_skip_ite _ _ _ _
    (by simp [jget, kUseDefaultBadwordsids, kSamplerSeed])]
  rw [jget_skip_ite _ _ _ _ (by simp [jget, kMemory, kSamplerSeed])]
  rw [jget_skip_ite _ _ _ _
    (by simp [jget, kGrammar, kGrammarRetainState, kSamplerSeed])]
  rw [jget_skip_ite _ _ _ _
    (by simp [jget, kMirostat, kMirostatTau, kMirostatEta, kSamplerSeed])]
  rcases h6 : cfg.STOP_SEQUENCE with _ | seqs
  · rfl
  · by_cases ht : cfg.TRIM_STOP = true <;>
      simp [ht, jget, kStopSequence, kTrimStop, kSamplerSeed]

theorem jget_cond_memory (cfg : Config) :
    jget (condParams cfg) kMemory
      = if cfg.MEMORY ≠ [] then some (Json.str cfg.MEMORY) else none := by
  unfold condParams
  simp only [List.append_assoc]
  rw [jget_skip_ite _ _ _ _ (by simp [jget, kSamplerSeed, kMemory])]
  rw [jget_skip_ite _ _ _ _ (by simp [jget, kUseDefaultBadwordsids, kMemory])]
  refine jget_here_ite _ _ _ _ _ (by simp [jget, kMemory]) ?_
  rw [jget_skip_ite _ _ _ _
    (by simp [jget, kGrammar, kGrammarRetainState, kMemory])]
  rw [jget_skip_ite _ _ _ _
    (by simp [jget, kMirostat, kMirostatTau, kMirostatEta, kMemory])]
  rcases h6 : cfg.STOP_SEQUENCE with _ | seqs
  · rfl
  · by_cases ht : cfg.TRIM_STOP = true <;>
      simp [ht, jget, kStopSequence, kTrimStop, kMemory]

theorem jget_cond_grammar (cfg : Config) :
    jget (condParams cfg) kGrammar
      = if cfg.GRAMMAR ≠ [] then some (Json.str cfg.GRAMMAR) else none := by
  unfold condParams
  simp only [List.append_assoc]
  rw [jget_skip_ite _ _ _ _ (by simp [jget, kSamplerSeed, kGrammar])]
  rw [jget_skip_ite _ _ _ _
    (by simp [jget, kUseDefaultBadwordsids, kGrammar])]
  rw [jget_skip_ite _ _ _ _ (by simp [jget, kMemory, kGrammar])]
  refine jget_here_ite _ _ _ _ _
    (by simp [jget, kGrammar, kGrammarRetainState]) ?_
  rw [jget_skip_ite _ _ _ _
    (by simp [jget, kMirostat, kMirostatTau, kMirostatEta, kGrammar])]
  rcases h6 : cfg.STOP_SEQUENCE with _ | seqs
  · rfl
  · by_cases ht : cfg.TRIM_STOP = true <;>
      simp [ht, jget, kStopSequence, kTrimStop, kGrammar]

theorem jget_cond_grammar_retain (cfg : Config) :
    jget (condParams cfg) kGrammarRetainState
      = if cfg.GRAMMAR ≠ [] then some (Json.bool cfg.GRAMMAR_RETAIN_STATE)
        else none := by
  unfold condParams
  simp only [List.append_assoc]
  rw [jget_skip_ite _ _ _ _
    (by simp [jget, kSamplerSeed, kGrammarRetainState])]
  rw [jget_skip_ite _ _ _ _
    (by simp [jget, kUseDefaultBadwordsids, kGrammarRetainState])]
  rw [jget_skip_ite _ _ _ _ (by simp [jget, kMemory, kGrammarRetainState])]
  refine jget_here_ite _ _ _ _ _
    (by simp [jget, kGrammar, kGrammarRetainState]) ?_
  rw [jget_skip_ite _ _ _ _
    (by simp [jget, kMirostat, kMirostatTau, kMirostatEta,
      kGrammarRetainState])]
  rcases h6 : cfg.STOP_SEQUENCE with _ | seqs
  · rfl
  · by_cases ht : cfg.TRIM_STOP = true <;>
      simp [ht, jget, kStopSequence, kTrimStop, kGrammarRetainState]

theorem jget_cond_mirostat (cfg : Config) :
    jget (condParams cfg) kMirostat
      = if 0 < cfg.MIROSTAT then some (Json.num (cfg.MIROSTAT : ℚ))
        else none := by
  unfold condParams
  simp only [List.append_assoc]
  rw [jget_skip_ite _ _ _ _ (by simp [jget, kSamplerSeed, kMirostat])]
  rw [jget_skip_ite _ _ _ _
    (by simp [jget, kUseDefaultBadwordsids, kMirostat])]
  rw [jget_skip_ite _ _ _ _ (by simp [jget, kMemory, kMirostat])]
  rw [jget_skip_ite _ _ _ _
    (by simp [jget, kGrammar, kGrammarRetainState, kMirostat])]
  refine jget_here_ite _ _ _ _ _
    (by simp [jget, kMirostat]) ?_
  rcases h6 : cfg.STOP_SEQUENCE with _ | seqs
  · rfl
  · by_cases ht : cfg.TRIM_STOP = true <;>
      simp [ht, jget, kStopSequence, kTrimStop, kMirostat]

theorem jget_cond_mirostat_tau (cfg : Config) :
    jget (condParams cfg) kMirostatTau
      = if 0 < cfg.MIROSTAT then some (Json.num cfg.MIROSTAT_TAU)
        else none := by
  unfold condParams
  simp only [List.append_assoc]
  rw [jget_skip_ite _ _ _ _ (by simp [jget, kSamplerSeed, kMirostatTau])]
  rw [jget_skip_ite _ _ _ _
    (by simp [jget, kUseDefaultBadwordsids, kMirostatTau])]
  rw [jget_skip_ite _ _ _ _ (by simp [jget, kMemory, kMirostatTau])]
  rw [jget_skip_ite _ _ _ _
    (by simp [jget, kGrammar, kGrammarRetainState, kMirostatTau])]
  refine jget_here_ite _ _ _ _ _
    (by simp [jget, kMirostat, kMirostatTau]) ?_
  rcases h6 : cfg.STOP_SEQUENCE with _ | seqs
  · rfl
  · by_cases ht : cfg.TRIM_STOP = true <;>
      simp [ht, jget, kStopSequence, kTrimStop, kMirostatTau]

theorem jget_cond_mirostat_eta (cfg : Config) :
    jget (condParams cfg) kMirostatEta
      = if 0 < cfg.MIROSTAT then some (Json.num cfg.MIROSTAT_ETA)
        else none := by
  unfold condParams
  simp only [List.append_assoc]
  rw [jget_skip_ite _ _ _ _ (by simp [jget, kSamplerSeed, kMirostatEta])]
  rw [jget_skip_ite _ _ _ _
    (by simp [jget, kUseDefaultBadwordsids, kMirostatEta])]
  rw [jget_skip_ite _ _ _ _ (by simp [jget, kMemory, kMirostatEta])]
  rw [jget_skip_ite _ _ _ _
    (by simp [jget, kGrammar, kGrammarRetainState, kMirostatEta])]
  refine jget_here_ite _ _ _ _ _
    (by simp [jget, kMirostat, kMirostatTau, kMirostatEta]) ?_
  rcases h6 : cfg.STOP_SEQUENCE with _ | seqs
  · rfl
  · by_cases ht : cfg.TRIM_STOP = true <;>
      simp [ht, jget, kStopSequence, kTrimStop, kMirostatEta]

theorem jget_cond_stop_sequence (cfg : Config) :
    jget (condParams cfg) kStopSequence
      = match cfg.STOP_SEQUENCE with
        | some seqs => some (Json.arr (seqs.map Json.str))
        | none => none := by
  unfold condParams
  simp only [List.append_assoc]
  rw [jget_skip_ite _ _ _ _ (by simp [jget, kSamplerSeed, kStopSequence])]
  rw [jget_skip_ite _ _ _ _
    (by simp [jget, kUseDefaultBadwordsids, kStopSequence])]
  rw [jget_skip_ite _ _ _ _ (by simp [jget, kMemory, kStopSequence])]
  rw [jget_skip_ite _ _ _ _
    (by simp [jget, kGrammar, kGrammarRetainState, kStopSequence])]
  rw [jget_skip_ite _ _ _ _
    (by simp [jget, kMirostat, kMirostatTau, kMirostatEta, kStopSequence])]
  rcases h6 : cfg.STOP_SEQUENCE with _ | seqs <;> simp [jget]

theorem jget_cond_trim_stop (cfg : Config) :
    jget (condParams cfg) kTrimStop
      = if cfg.STOP_SEQUENCE.isSome ∧ cfg.TRIM_STOP then
          some (Json.bool cfg.TRIM_STOP) else none := by
  unfold condParams
  simp only [List.append_assoc]
  rw [jget_skip_ite _ _ _ _ (by simp [jget, kSamplerSeed, kTrimStop])]
  rw [jget_skip_ite _ _ _ _
    (by simp [jget, kUseDefaultBadwordsids, kTrimStop])]
  rw [jget_skip_ite _ _ _ _ (by simp [jget, kMemory, kTrimStop])]
  rw [jget_skip_ite _ _ _ _
    (by simp [jget, kGrammar, kGrammarRetainState, kTrimStop])]
  rw [jget_skip_ite _ _ _ _
    (by simp [jget, kMirostat, kMirostatTau, kMirostatEta, kTrimStop])]
  rcases h6 : cfg.STOP_SEQUENCE with _ | seqs
  · simp [jget]
  · by_cases ht : cfg.TRIM_STOP = true <;>
      simp [ht, jget, kStopSequence, kTrimStop]

/-- **C5**: the conditional payload keys are present exactly when their
activating condition holds and then carry the exact stored value:
`mirostat` (with `mirostat_tau` and `mirostat_eta`) iff the stored
mirostat mode is positive, `grammar` (with `grammar_retain_state`) iff the
stored grammar string is non-empty, `memory` iff the stored memory string
is non-empty, `sampler_seed` iff the stored seed is positive,
`stop_sequence` iff a stop-sequence list is configured, and `trim_stop`
only when trimming is enabled and stop sequences are configured. -/
theorem payload_conditional_keys (cfg : Config) (prompt : List Char)
    (tokens : Int) :
    (jget (buildParams cfg prompt tokens) kMirostat
      = if 0 < cfg.MIROSTAT then some (Json.num (cfg.MIROSTAT : ℚ))
        else none)
  ∧ (jget (buildParams cfg prompt tokens) kMirostatTau
      = if 0 < cfg.MIROSTAT then some (Json.num cfg.MIROSTAT_TAU) else none)
  ∧ (jget (buildParams cfg prompt tokens) kMirostatEta
      = if 0 < cfg.MIROSTAT then some (Json.num cfg.MIROSTAT_ETA) else none)
  ∧ (jget (buildParams cfg prompt tokens) kGrammar
      = if cfg.GRAMMAR ≠ [] then some (Json.str cfg.GRAMMAR) else none)
  ∧ (jget (buildParams cfg prompt tokens) kGrammarRetainState
      = if cfg.GRAMMAR ≠ [] then some (Json.bool cfg.GRAMMAR_RETAIN_STATE)
        else none)
  ∧ (jget (buildParams cfg prompt tokens) kMemory
      = if cfg.MEMORY ≠ [] then some (Json.str cfg.MEMORY) else none)
  ∧ (jget (buildParams cfg prompt tokens) kSamplerSeed
      = if 0 < cfg.SAMPLER_SEED then some (Json.num (cfg.SAMPLER_SEED : ℚ))
        else none)
  ∧ (jget (buildParams cfg prompt tokens) kStopSequence
      = match cfg.STOP_SEQUENCE with
        | some seqs => some (Json.arr (seqs.map Json.str))
        | none => none)
  ∧ (jget (buildParams cfg prompt tokens) kTrimStop
      = if cfg.STOP_SEQUENCE.isSome ∧ cfg.TRIM_STOP then
          some (Json.bool cfg.TRIM_STOP) else none) := by
  obtain ⟨b1, b2, b3, b4, b5, b6, b7, b8, b9, b10⟩ :=
    jget_base_none cfg prompt tokens
  unfold buildParams
  exact ⟨(jget_append_right _ _ _ b6).trans (jget_cond_mirostat cfg),
    (jget_append_right _ _ _ b7).trans (jget_cond_mirostat_tau cfg),
    (jget_append_right _ _ _ b8).trans (jget_cond_mirostat_eta cfg),
    (jget_append_right _ _ _ b4).trans (jget_cond_grammar cfg),
    (jget_append_right _ _ _ b5).trans (jget_cond_grammar_retain cfg),
    (jget_append_right _ _ _ b3).trans (jget_cond_memory cfg),
    (jget_append_right _ _ _ b1).trans (jget_cond_sampler_seed cfg),
    (jget_append_right _ _ _ b9).trans (jget_cond_stop_sequence cfg),
    (jget_append_right _ _ _ b10).trans (jget_cond_trim_stop cfg)⟩

/-- Shared fact: with a stop-sequence list configured, a success status and
a well-shaped body, the result is the stripped text run through the whole
stop-sequence loop. -/
theorem processResponse_ok_of_stop (cfg : Config) (resp : Response)
    (seqs : List (List Char)) (raw : List Char)
    (hstop : cfg.STOP_SEQUENCE = some seqs)
    (hok : isHttpError resp.status = false)
    (htext : getResultText resp.body = some raw) :
    processResponse cfg resp
      = Except.ok (stripStopSequences seqs (pyStrip raw)) := by
  unfold getResultText at htext
  rcases he : extractOutcome resp.body with s | _ | _ <;> rw [he] at htext
  · obtain rfl : s = raw := by simpa using htext
    simp [processResponse, hok, he, hstop]
  · simp at htext
  · simp at htext

/-- The C3 claim's described post-processing, modelled from the spec's
words for comparison: remove only the first stop sequence, in configured
order, that matches as a trailing suffix, then trim trailing whitespace. -/
def removeFirstMatchingStop : List (List Char) → List Char → List Char
  | [], text => text
  | seq :: rest, text =>
    if endswith text seq then pyRstrip (pySliceNeg text seq.length)
    else removeFirstMatchingStop rest text

/-- A client configured with the two stop sequences "B" then "A". -/
def cfgTwoStops : Config :=
  koboldInit { defaultCandidates with
    STOP_SEQUENCE := some ["B".toList, "A".toList] }

/-- A successful response whose result text is "xAB". -/
def respTwoStops : Response where
  status := 200
  body := Json.obj
    [(kResults, Json.arr [Json.obj [(kText, Json.str ("xAB".toList))]])]

/-- **C3** is false as stated: with stop sequences ["B", "A"] and response
text "xAB", `generate` removes BOTH sequences — the loop over the
configured list has no break — and returns "x", whereas removing only the
first matching sequence, as the claim describes, would return "xA". -/
theorem stop_removal_not_first_match_only :
    processResponse cfgTwoStops respTwoStops = Except.ok ("x".toList)
  ∧ removeFirstMatchingStop ["B".toList, "A".toList]
      (pyStrip ("xAB".toList)) = "xA".toList
  ∧ ("x".toList : List Char) ≠ "xA".toList :=
  ⟨rfl, by decide, by decide⟩

/-- **C3 (amended)**: with a stop-sequence list configured and a successful
well-shaped response, `generate` first trims surrounding whitespace, then
tries every configured stop sequence in list order, removing each one that
matches as a trailing suffix of the current text, each removal followed by
a trailing-whitespace trim; in particular the response text
"Hello world. STOP" with stop sequences ["STOP"] yields "Hello world.". -/
theorem stop_sequences_removed_in_order (cfg : Config) (resp : Response)
    (seqs : List (List Char)) (raw : List Char)
    (hstop : cfg.STOP_SEQUENCE = some seqs)
    (hok : isHttpError resp.status = false)
    (htext : getResultText resp.body = some raw) :
    processResponse cfg resp
      = Except.ok (stripStopSequences seqs (pyStrip raw)) :=
  processResponse_ok_of_stop cfg resp seqs raw hstop hok htext

/-- The client of the specification's scenario test: stop sequence "STOP"
with trimming enabled. -/
def cfgHello : Config :=
  koboldInit { defaultCandidates with
    STOP_SEQUENCE := some ["STOP".toList], TRIM_STOP := true }

/-- The mocked response of the scenario test. -/
def respHello : Response where
  status := 200
  body := Json.obj
    [(kResults,
      Json.arr [Json.obj [(kText, Json.str ("Hello world. STOP".toList))]])]

/-- Witness for the amended C3 at the specification's scenario test. -/
theorem stop_sequences_removed_in_order_witness :
    processResponse cfgHello respHello
      = Except.ok ("Hello world.".toList) := by
  have h := stop_sequences_removed_in_order cfgHello respHello
    (["STOP".toList]) ("Hello world. STOP".toList) rfl rfl rfl
  exact h.trans (congrArg Except.ok (by decide))

/-- A successful response whose first result has a `text` field holding
`null` instead of a string. -/
def respNullText : Response where
  status := 200
  body := Json.obj [(kResults, Json.arr [Json.obj [(kText, Json.null)]])]

/-- **C4** is false as stated: the successful response
`{"results": [{"text": null}]}` has a `text` field in its first result,
so the claim permits only a returned text, yet the code reaches
`.strip()` on `None` and raises an `AttributeError` — a third kind of
error, neither the transport error nor the format `ValueError`. -/
theorem generate_has_third_error_kind :
    pyIn kText (Json.obj [(kText, Json.null)]) = some true
  ∧ processResponse cfgHello respNullText
      = Except.error (KoboldError.dynamic respNullText)
  ∧ processResponse cfgHello respNullText
      ≠ Except.error (KoboldError.format respNullText)
  ∧ processResponse cfgHello respNullText
      ≠ Except.error (KoboldError.transport respNullText) := by
  have he : processResponse cfgHello respNullText
      = Except.error (KoboldError.dynamic respNullText) := rfl
  refine ⟨rfl, he, ?_, ?_⟩ <;> rw [he] <;> simp

/-- **C4 (amended)**: `generate` raises a transport error when and only
when the HTTP status indicates failure, decided before the body is
inspected (the same transport error results for every body); on a success
status it raises a format error, carrying the offending response, when
and only when the shape condition on `results[0]` evaluates to false; it
raises a dynamic type error (`TypeError`/`KeyError`/`AttributeError`)
when and only when evaluating the condition or `.strip()` on the `text`
value raises — in particular for a present but non-string `text` — and
it returns the extracted text otherwise. -/
theorem inference_error_classification (cfg : Config) (resp : Response) :
    (isHttpError resp.status = true →
      processResponse cfg resp = Except.error (KoboldError.transport resp))
  ∧ (isHttpError resp.status = false →
      (processResponse cfg resp = Except.error (KoboldError.format resp)
        ↔ extractOutcome resp.body = ExtractOutcome.formatErr))
  ∧ (isHttpError resp.status = false →
      (processResponse cfg resp = Except.error (KoboldError.dynamic resp)
        ↔ extractOutcome resp.body = ExtractOutcome.dynErr))
  ∧ (isHttpError resp.status = false →
      ∀ raw, extractOutcome resp.body = ExtractOutcome.ok raw →
        ∃ out, processResponse cfg resp = Except.ok out) := by
  refine ⟨?_, ?_, ?_, ?_⟩
  · intro h
    simp [processResponse, h]
  · intro h
    rcases ho : extractOutcome resp.body with raw | _ | _ <;>
      simp [processResponse, h, ho]
  · intro h
    rcases ho : extractOutcome resp.body with raw | _ | _ <;>
      simp [processResponse, h, ho]
  · intro h raw hs
    refine ⟨(match cfg.STOP_SEQUENCE with
      | some seqs => stripStopSequences seqs (pyStrip raw)
      | none => pyStrip raw), ?_⟩
    simp only [processResponse, h, hs, Bool.false_eq_true, if_false]

/-- A mocked failing response: status 404. -/
def respFail : Response where
  status := 404
  body := Json.null

/-- A mocked successful response missing `results`. -/
def respBad : Response where
  status := 200
  body := Json.obj []

/-- Witness for the amended C4: one concrete response per outcome class. -/
theorem inference_error_classification_witness :
    processResponse cfgHello respFail
        = Except.error (KoboldError.transport respFail)
  ∧ processResponse cfgHello respBad
        = Except.error (KoboldError.format respBad)
  ∧ processResponse cfgHello respNullText
        = Except.error (KoboldError.dynamic respNullText)
  ∧ ∃ out, processResponse cfgHello respHello = Except.ok out :=
  ⟨(inference_error_classification cfgHello respFail).1 rfl,
   ((inference_error_classification cfgHello respBad).2.1 rfl).mpr rfl,
   ((inference_error_classification cfgHello respNullText).2.2.1 rfl).mpr
     rfl,
   (inference_error_classification cfgHello respHello).2.2.2 rfl
     ("Hello world. STOP".toList) rfl⟩

/-- **C10**: trailing stop-sequence removal is applied whenever a
stop-sequence list is configured, independently of TRIM_STOP: with
TRIM_STOP disabled the returned text is still stripped by the whole
stop-sequence loop, the `trim_stop` payload key is absent, and changing
TRIM_STOP never changes the post-processing of the response. -/
theorem trim_stop_only_controls_payload (cfg : Config) (resp : Response)
    (seqs : List (List Char)) (raw : List Char) (prompt : List Char)
    (tokens : Int)
    (hstop : cfg.STOP_SEQUENCE = some seqs)
    (hflag : cfg.TRIM_STOP = false)
    (hok : isHttpError resp.status = false)
    (htext : getResultText resp.body = some raw) :
    processResponse cfg resp
      = Except.ok (stripStopSequences seqs (pyStrip raw))
  ∧ jget (buildParams cfg prompt tokens) kTrimStop = none
  ∧ (∀ b : Bool, processResponse { cfg with TRIM_STOP := b } resp
      = processResponse cfg resp) := by
  refine ⟨processResponse_ok_of_stop cfg resp seqs raw hstop hok htext,
    ?_, fun b => rfl⟩
  obtain ⟨b1, b2, b3, b4, b5, b6, b7, b8, b9, b10⟩ :=
    jget_base_none cfg prompt tokens
  unfold buildParams
  rw [jget_append_right _ _ _ b10, jget_cond_trim_stop cfg, hflag]
  simp

/-- The scenario client with trimming disabled. -/
def cfgHelloNoTrim : Config :=
  koboldInit { defaultCandidates with
    STOP_SEQUENCE := some ["STOP".toList] }

/-- Witness for C10: with TRIM_STOP false the stop sequence is still
removed from the result and the payload has no `trim_stop` key. -/
theorem trim_stop_only_controls_payload_witness :
    processResponse cfgHelloNoTrim respHello
        = Except.ok ("Hello world.".toList)
  ∧ jget (buildParams cfgHelloNoTrim [] 0) kTrimStop = none := by
  have h := trim_stop_only_controls_payload cfgHelloNoTrim respHello
    (["STOP".toList]) ("Hello world. STOP".toList) [] 0 rfl rfl rfl rfl
  exact ⟨h.1.trans (congrArg Except.ok (by decide)), h.2.1⟩
